import Mathlib

/-!
Shallow embedding of the ExpenseDashboard service layer
(`src/services/*.py`, `src/models/__init__.py`,
`src/validation_schemas/schemas.py`).

The relational store is a record of lists of rows; every service function
takes the store explicitly and returns `Except Err` results, mirroring the
exception-based Python services.  Fixed-point `Numeric(10,2)` amounts are
integers counted in cents.  Pydantic update schemas with
`model_dump(exclude_unset=True)` are embedded as records of tri-state
fields (`Patch`): absent, explicit null, or a value.
-/

namespace ExpenseDash

/-- Calendar date (the embedding of SQL `Date` values). -/
structure CalDate where
  year : Nat
  month : Nat
  day : Nat
deriving DecidableEq, Repr

/-- Ascending lexicographic order on quadruples of naturals, non-strict in
the last component.  Used to embed multi-key SQL `ORDER BY` clauses. -/
def lex4 (a b : Nat × Nat × Nat × Nat) : Prop :=
  a.1 < b.1 ∨ (a.1 = b.1 ∧ (a.2.1 < b.2.1 ∨ (a.2.1 = b.2.1 ∧
    (a.2.2.1 < b.2.2.1 ∨ (a.2.2.1 = b.2.2.1 ∧ a.2.2.2 ≤ b.2.2.2)))))

instance : DecidableRel lex4 := fun a b => by
  unfold lex4; infer_instance

/-- Date order (`Expense.date` comparisons in filters and `ORDER BY`). -/
def CalDate.le (a b : CalDate) : Prop :=
  lex4 (a.year, a.month, a.day, 0) (b.year, b.month, b.day, 0)

instance : DecidableRel CalDate.le := fun a b => by
  unfold CalDate.le; infer_instance

/-- Row of the `expense` table (`src/models/__init__.py`, class `Expense`).
`amount` is in cents; `tag_ids` embeds the `expense_tag` association rows
of this expense. -/
structure Expense where
  id : Nat
  user_id : Nat
  name : String
  amount : Int
  date : CalDate
  description : Option String
  merchant : Option String
  active_status : Bool
  category_id : Option Nat
  tag_ids : List Nat
deriving DecidableEq, Repr

/-- Row of the `category` table. -/
structure Category where
  id : Nat
  user_id : Nat
  name : String
deriving DecidableEq, Repr

/-- Row of the `tag` table. -/
structure Tag where
  id : Nat
  user_id : Nat
  name : String
deriving DecidableEq, Repr

/-- Row of the `income` table. -/
structure Income where
  id : Nat
  user_id : Nat
  source : String
  amount : Int
  date : CalDate
  description : Option String
deriving DecidableEq, Repr

/-- Row of the `budget` table. -/
structure Budget where
  id : Nat
  user_id : Nat
  amount : Int
  year : Nat
  month : Nat
  category_id : Option Nat
deriving DecidableEq, Repr

/-- The relational store. -/
structure DB where
  expenses : List Expense
  categories : List Category
  tags : List Tag
  incomes : List Income
  budgets : List Budget
deriving DecidableEq, Repr

/-- Primary keys are unique per table (the database assigns them). -/
def DB.wf (s : DB) : Prop :=
  (s.expenses.map (·.id)).Nodup ∧ (s.categories.map (·.id)).Nodup ∧
  (s.tags.map (·.id)).Nodup ∧ (s.incomes.map (·.id)).Nodup ∧
  (s.budgets.map (·.id)).Nodup

instance (s : DB) : Decidable s.wf := by
  unfold DB.wf; infer_instance

/-- Domain errors raised by the service layer (`NotFoundError`,
`BudgetAlreadyExistsError`), plus the storage-level integrity error that a
commit writing `NULL` into a `NOT NULL` column would raise. -/
inductive Err where
  | notFound (msg : String)
  | alreadyExists (msg : String)
  | integrityViolation
deriving DecidableEq, Repr

instance {ε α : Type} [DecidableEq ε] [DecidableEq α] :
    DecidableEq (Except ε α) := fun a b =>
  match a, b with
  | .error x, .error y =>
    if h : x = y then isTrue (by rw [h]) else
      isFalse (fun hc => by cases hc; exact h rfl)
  | .ok x, .ok y =>
    if h : x = y then isTrue (by rw [h]) else
      isFalse (fun hc => by cases hc; exact h rfl)
  | .error _, .ok _ => isFalse (fun hc => by cases hc)
  | .ok _, .error _ => isFalse (fun hc => by cases hc)

/-- Tri-state field of a pydantic update schema read through
`model_dump(exclude_unset=True)`: not provided, provided as `null`, or
provided with a value. -/
inductive Patch (α : Type) where
  | absent
  | null
  | value (a : α)
deriving DecidableEq

/-- `update_data.get(key, dflt)` for a non-nullable column: absent fields
fall back to the current value, an explicit null stays `None`. -/
def Patch.toOption {α : Type} (p : Patch α) (dflt : α) : Option α :=
  match p with
  | .absent => some dflt
  | .null => none
  | .value a => some a

/-- `update_data.get(key, dflt)` for a nullable column whose current value
is already an `Option`. -/
def Patch.toOptFlat {α : Type} (p : Patch α) (dflt : Option α) : Option α :=
  match p with
  | .absent => dflt
  | .null => none
  | .value a => some a

/-- Whether the field was provided at all (`key in update_data`). -/
def Patch.isSet {α : Type} : Patch α → Bool
  | .absent => false
  | _ => true

/-- Error message of `get_expense_by_id`. -/
def expense_not_found_msg (user_id expense_id : Nat) : String :=
  "Expense with id " ++ toString expense_id ++ " under user_id " ++
    toString user_id ++ " not found"

/-- Error message of `get_category_by_id`. -/
def category_not_found_msg (category_id : Nat) : String :=
  "Category with id " ++ toString category_id ++ " not found"

/-- Error message of `get_tag_by_id`. -/
def tag_not_found_msg (tag_id : Nat) : String :=
  "Tag with id " ++ toString tag_id ++ " not found"

/-- Error message of `get_income_by_id`. -/
def income_not_found_msg (income_id : Nat) : String :=
  "Income with id " ++ toString income_id ++ " not found"

/-- Error message of `get_budget_by_id`. -/
def budget_not_found_msg (user_id budget_id : Nat) : String :=
  "Budget with id " ++ toString budget_id ++ " not found for user " ++
    toString user_id

/-- `expense_service.get_expense_by_id`. -/
def get_expense_by_id (s : DB) (user_id expense_id : Nat) : Except Err Expense :=
  match s.expenses.find? (fun e => e.user_id == user_id && e.id == expense_id) with
  | some e => .ok e
  | none => .error (.notFound (expense_not_found_msg user_id expense_id))

/-- `expense_service.get_category_by_id`; a `None` id is a valid
"no category" result. -/
def get_category_by_id (s : DB) (user_id : Nat) (category_id : Option Nat) :
    Except Err (Option Category) :=
  match category_id with
  | none => .ok none
  | some cid =>
    match s.categories.find? (fun c => c.user_id == user_id && c.id == cid) with
    | some c => .ok (some c)
    | none => .error (.notFound (category_not_found_msg cid))

/-- `expense_service.get_tag_by_id`. -/
def get_tag_by_id (s : DB) (user_id tag_id : Nat) : Except Err Tag :=
  match s.tags.find? (fun t => t.user_id == user_id && t.id == tag_id) with
  | some t => .ok t
  | none => .error (.notFound (tag_not_found_msg tag_id))

/-- `income_service.get_income_by_id`. -/
def get_income_by_id (s : DB) (user_id income_id : Nat) : Except Err Income :=
  match s.incomes.find? (fun i => i.user_id == user_id && i.id == income_id) with
  | some i => .ok i
  | none => .error (.notFound (income_not_found_msg income_id))

/-- `budget_service.get_budget_by_id`. -/
def get_budget_by_id (s : DB) (user_id budget_id : Nat) : Except Err Budget :=
  match s.budgets.find? (fun b => b.user_id == user_id && b.id == budget_id) with
  | some b => .ok b
  | none => .error (.notFound (budget_not_found_msg user_id budget_id))

/-- `ORDER BY expense.date DESC, expense.id DESC`: `a` precedes `b`. -/
def expense_order (a b : Expense) : Prop :=
  lex4 (b.date.year, b.date.month, b.date.day, b.id)
       (a.date.year, a.date.month, a.date.day, a.id)

instance : DecidableRel expense_order := fun a b => by
  unfold expense_order; infer_instance

/-- `ORDER BY budget.year DESC, budget.month DESC, budget.id DESC`. -/
def budget_order (a b : Budget) : Prop :=
  lex4 (b.year, b.month, b.id, b.id) (a.year, a.month, a.id, a.id)

instance : DecidableRel budget_order := fun a b => by
  unfold budget_order; infer_instance

/-- `ORDER BY category.name`. -/
def category_order (a b : Category) : Prop := a.name ≤ b.name

instance : DecidableRel category_order := fun a b => by
  unfold category_order; infer_instance

/-- `ORDER BY tag.name`. -/
def tag_order (a b : Tag) : Prop := a.name ≤ b.name

instance : DecidableRel tag_order := fun a b => by
  unfold tag_order; infer_instance

/-- Result of flask-sqlalchemy `Query.paginate`. -/
structure Paged (α : Type) where
  items : List α
  total : Nat
  pages : Nat
  current_page : Nat
  per_page : Nat
  has_next : Bool
  has_prev : Bool
deriving DecidableEq, Repr

/-- flask-sqlalchemy `paginate(..., error_out=False)`: a page below 1 is
clamped to 1, a per_page below 1 falls back to the default 20, an
out-of-range page yields an empty item list; `pages` is
`ceil(total / per_page)` (0 when there are no rows), `has_next` is
`page < pages` and `has_prev` is `page > 1`. -/
def paginate {α : Type} (l : List α) (page per_page : Nat) : Paged α :=
  let pg := if page < 1 then 1 else page
  let pp := if per_page < 1 then 20 else per_page
  let total := l.length
  let pages := (total + pp - 1) / pp
  { items := (l.drop ((pg - 1) * pp)).take pp
    total := total
    pages := pages
    current_page := pg
    per_page := pp
    has_next := decide (pg < pages)
    has_prev := decide (1 < pg) }

/-- `expense_service.get_all_expenses`. -/
def get_all_expenses (s : DB) (user_id page per_page : Nat) : Paged Expense :=
  paginate
    (List.insertionSort expense_order (s.expenses.filter (fun e => e.user_id == user_id)))
    page per_page

/-- `expense_service.get_all_categories`. -/
def get_all_categories (s : DB) (user_id page per_page : Nat) : Paged Category :=
  paginate
    (List.insertionSort category_order (s.categories.filter (fun c => c.user_id == user_id)))
    page per_page

/-- `expense_service.get_all_tags`. -/
def get_all_tags (s : DB) (user_id page per_page : Nat) : Paged Tag :=
  paginate
    (List.insertionSort tag_order (s.tags.filter (fun t => t.user_id == user_id)))
    page per_page

/-- `budget_service.get_all_budgets`. -/
def get_all_budgets (s : DB) (user_id page per_page : Nat) : Paged Budget :=
  paginate
    (List.insertionSort budget_order (s.budgets.filter (fun b => b.user_id == user_id)))
    page per_page

/-- Python `str` of a sorted list of ids, as interpolated into the
invalid-tag error message: `[2, 5]`. -/
def id_list_repr (l : List Nat) : String :=
  "[" ++ String.intercalate ", " (l.map toString) ++ "]"

/-- Tag ids of `user_id` among `tag_ids`
(`SELECT tag.id WHERE tag.id IN tag_ids AND tag.user_id = user_id`). -/
def owned_tag_ids (s : DB) (user_id : Nat) (tag_ids : Finset Nat) : Finset Nat :=
  tag_ids.filter (fun i => ∃ t ∈ s.tags, t.id = i ∧ t.user_id = user_id)

/-- `expense_service.validate_tags`. -/
def validate_tags (s : DB) (user_id : Nat) (tag_ids : Finset Nat) :
    Except Err (Finset Nat) :=
  let fetched := owned_tag_ids s user_id tag_ids
  if fetched.card ≠ tag_ids.card then
    .error (.notFound ("One or more invalid tag ids: " ++
      id_list_repr ((tag_ids \ fetched).sort (· ≤ ·))))
  else
    .ok fetched

/-- `expense_service.get_tags_by_ids`.  The argument is `Option` because
`update_expense` passes the raw payload value through, and Python's
`if not tag_ids` treats `None` and the empty set alike. -/
def get_tags_by_ids (s : DB) (user_id : Nat) (tag_ids : Option (Finset Nat)) :
    Except Err (List Tag) :=
  match tag_ids with
  | none => .ok []
  | some ids =>
    if ids = ∅ then .ok []
    else
      match validate_tags s user_id ids with
      | .error err => .error err
      | .ok fetched =>
        .ok (List.insertionSort tag_order (s.tags.filter (fun t => decide (t.id ∈ fetched))))

/-- `CreateExpenseSchema` after pydantic validation (defaults applied). -/
structure CreateExpenseSchema where
  name : String
  amount : Int
  description : Option String
  category_id : Option Nat
  active_status : Bool
  merchant : Option String
  date : CalDate
  tag_ids : Finset Nat
deriving DecidableEq

/-- `UpdateExpenseSchema` viewed through `model_dump(exclude_unset=True)`:
each optional field is absent, explicitly null, or a value.  The schema
has no `merchant` field. -/
structure UpdateExpenseSchema where
  name : Patch String
  amount : Patch Int
  description : Patch String
  category_id : Patch Nat
  active_status : Patch Bool
  date : Patch CalDate
  tag_ids : Patch (Finset Nat)
deriving DecidableEq

/-- The payload whose only provided field is `tag_ids`, given as `null`. -/
def tag_ids_null_payload : UpdateExpenseSchema :=
  { name := .absent, amount := .absent, description := .absent,
    category_id := .absent, active_status := .absent, date := .absent,
    tag_ids := .null }

/-- `CreateBudgetSchema` after pydantic validation. -/
structure CreateBudgetSchema where
  amount : Int
  year : Nat
  month : Nat
  category_id : Option Nat
deriving DecidableEq

/-- `UpdateBudgetSchema` viewed through `model_dump(exclude_unset=True)`. -/
structure UpdateBudgetSchema where
  amount : Patch Int
  year : Patch Nat
  month : Patch Nat
  category_id : Patch Nat
deriving DecidableEq

/-- `UpdateIncomeSchema` viewed through `model_dump(exclude_unset=True)`. -/
structure UpdateIncomeSchema where
  source : Patch String
  amount : Patch Int
  date : Patch CalDate
  description : Patch String
deriving DecidableEq

/-- Python `str` of an `int | None`. -/
def opt_nat_str (o : Option Nat) : String :=
  match o with
  | none => "None"
  | some n => toString n

/-- Scope word of the budget-conflict message. -/
def overall_or_categorical (category_id : Option Nat) : String :=
  match category_id with
  | none => "Overall"
  | some _ => "Categorical"

/-- Message of `BudgetAlreadyExistsError`
(`f"{scope} budget already exists for {year}-{month}"`). -/
def conflict_msg (category_id : Option Nat) (year month : Option Nat) : String :=
  overall_or_categorical category_id ++ " budget already exists for " ++
    opt_nat_str year ++ "-" ++ opt_nat_str month

/-- `budget_service._check_for_conflicting_budget`.  `year` and `month`
are `Option` because `update_budget` feeds them through
`update_data.get(...)`, which can produce `None`; a `None` never matches
the non-nullable columns.  Python's `if existing_budget_id:` is truthy
only for a non-`None`, non-zero id. -/
def check_for_conflicting_budget (s : DB) (user_id : Nat)
    (year month : Option Nat) (category_id : Option Nat)
    (existing_budget_id : Option Nat) : Except Err Unit :=
  let q : List Budget := s.budgets.filter (fun b =>
    b.user_id == user_id && some b.year == year && some b.month == month &&
      b.category_id == category_id)
  let q2 : List Budget := match existing_budget_id with
    | some eid => if eid ≠ 0 then q.filter (fun b => b.id != eid) else q
    | none => q
  match q2 with
  | [] => .ok ()
  | _ :: _ => .error (.alreadyExists (conflict_msg category_id year month))

/-- `budget_service.create_budget`.  `new_id` is the primary key the
database assigns on insert. -/
def create_budget (s : DB) (user_id : Nat) (data : CreateBudgetSchema)
    (new_id : Nat) : Except Err (Budget × DB) :=
  match check_for_conflicting_budget s user_id (some data.year)
      (some data.month) data.category_id none with
  | .error err => .error err
  | .ok _ =>
    match get_category_by_id s user_id data.category_id with
    | .error err => .error err
    | .ok category =>
      let b : Budget :=
        { id := new_id, user_id := user_id, amount := data.amount,
          year := data.year, month := data.month,
          category_id := category.map (·.id) }
      .ok (b, { s with budgets := s.budgets ++ [b] })

/-- `budget_service.update_budget`.  An explicit null for the non-nullable
`amount`/`year`/`month` columns would be written by `setattr` and rejected
by the storage layer at commit. -/
def update_budget (s : DB) (user_id budget_id : Nat)
    (data : UpdateBudgetSchema) : Except Err (Budget × DB) :=
  match get_budget_by_id s user_id budget_id with
  | .error err => .error err
  | .ok budget =>
    match (if data.year.isSet || data.month.isSet || data.category_id.isSet then
        check_for_conflicting_budget s user_id
          (data.year.toOption budget.year) (data.month.toOption budget.month)
          (data.category_id.toOptFlat budget.category_id) (some budget_id)
      else .ok ()) with
    | .error err => .error err
    | .ok _ =>
      match ((match data.category_id with
        | .absent => .ok budget.category_id
        | .null =>
          (get_category_by_id s user_id none).map (fun c => c.map (·.id))
        | .value v =>
          (get_category_by_id s user_id (some v)).map (fun c => c.map (·.id))) :
          Except Err (Option Nat)) with
      | .error err => .error err
      | .ok new_category_id =>
        if data.amount = Patch.null ∨ data.year = Patch.null ∨ data.month = Patch.null then
          .error .integrityViolation
        else
          let b2 : Budget :=
            { budget with
              amount := match data.amount with | .value a => a | _ => budget.amount
              year := match data.year with | .value y => y | _ => budget.year
              month := match data.month with | .value m => m | _ => budget.month
              category_id := new_category_id }
          .ok (b2, { s with budgets := s.budgets.map (fun b => if b.id == budget.id then b2 else b) })

/-- `budget_service.delete_budget`. -/
def delete_budget (s : DB) (user_id budget_id : Nat) : Except Err DB :=
  match get_budget_by_id s user_id budget_id with
  | .error err => .error err
  | .ok budget =>
    .ok { s with budgets := s.budgets.filter (fun b => b.id != budget.id) }

/-- `expense_service.create_expense`. -/
def create_expense (s : DB) (user_id : Nat) (data : CreateExpenseSchema)
    (new_id : Nat) : Except Err (Expense × DB) :=
  match get_category_by_id s user_id data.category_id with
  | .error err => .error err
  | .ok category =>
    match get_tags_by_ids s user_id (some data.tag_ids) with
    | .error err => .error err
    | .ok tags =>
      let e : Expense :=
        { id := new_id, user_id := user_id, name := data.name,
          amount := data.amount, date := data.date,
          description := data.description, merchant := data.merchant,
          active_status := data.active_status,
          category_id := category.map (·.id), tag_ids := tags.map (·.id) }
      .ok (e, { s with expenses := s.expenses ++ [e] })

/-- `expense_service.update_expense`.  Relation fields are re-resolved
first (category, then tags), then scalars are applied; an explicit null
for a `NOT NULL` column is rejected by the storage layer at commit. -/
def update_expense (s : DB) (user_id expense_id : Nat)
    (data : UpdateExpenseSchema) : Except Err (Expense × DB) :=
  match get_expense_by_id s user_id expense_id with
  | .error err => .error err
  | .ok expense =>
    match ((match data.category_id with
      | .absent => .ok expense.category_id
      | .null =>
        (get_category_by_id s user_id none).map (fun c => c.map (·.id))
      | .value v =>
        (get_category_by_id s user_id (some v)).map (fun c => c.map (·.id))) :
        Except Err (Option Nat)) with
    | .error err => .error err
    | .ok new_category_id =>
      match ((match data.tag_ids with
        | .absent => .ok expense.tag_ids
        | .null =>
          (get_tags_by_ids s user_id none).map (fun ts => ts.map (·.id))
        | .value v =>
          (get_tags_by_ids s user_id (some v)).map (fun ts => ts.map (·.id))) :
          Except Err (List Nat)) with
      | .error err => .error err
      | .ok new_tag_ids =>
        if data.name = Patch.null ∨ data.amount = Patch.null ∨
            data.active_status = Patch.null ∨ data.date = Patch.null then
          .error .integrityViolation
        else
          let e2 : Expense :=
            { expense with
              name := match data.name with | .value v => v | _ => expense.name
              amount := match data.amount with | .value v => v | _ => expense.amount
              date := match data.date with | .value v => v | _ => expense.date
              active_status :=
                match data.active_status with | .value v => v | _ => expense.active_status
              description := data.description.toOptFlat expense.description
              category_id := new_category_id
              tag_ids := new_tag_ids }
          .ok (e2, { s with expenses := s.expenses.map (fun e => if e.id == expense.id then e2 else e) })

/-- `expense_service.delete_expense`.  Deleting an expense also removes
its `expense_tag` association rows (they live in `tag_ids` here). -/
def delete_expense (s : DB) (user_id expense_id : Nat) : Except Err DB :=
  match get_expense_by_id s user_id expense_id with
  | .error err => .error err
  | .ok expense =>
    .ok { s with expenses := s.expenses.filter (fun e => e.id != expense.id) }

/-- `expense_service.update_category`. -/
def update_category (s : DB) (user_id category_id : Nat) (name : String) :
    Except Err (Category × DB) :=
  match get_category_by_id s user_id (some category_id) with
  | .error err => .error err
  | .ok none => .error .integrityViolation
  | .ok (some c) =>
    let c2 : Category := { c with name := name }
    .ok (c2, { s with categories := s.categories.map (fun x => if x.id == c.id then c2 else x) })

/-- `expense_service.delete_category`.  `Category.budgets` carries
`cascade='all, delete-orphan'`, so the category's budgets are deleted
with it; `Category.expenses` has no delete cascade, so the ORM clears the
`category_id` foreign key of the referencing expenses. -/
def delete_category (s : DB) (user_id category_id : Nat) : Except Err DB :=
  match get_category_by_id s user_id (some category_id) with
  | .error err => .error err
  | .ok none => .error .integrityViolation
  | .ok (some c) =>
    .ok { s with
      categories := s.categories.filter (fun x => x.id != c.id)
      budgets := s.budgets.filter (fun b => b.category_id != some c.id)
      expenses := s.expenses.map (fun e =>
        if e.category_id == some c.id then { e with category_id := none } else e) }

/-- `expense_service.update_tag`. -/
def update_tag (s : DB) (user_id tag_id : Nat) (name : String) :
    Except Err (Tag × DB) :=
  match get_tag_by_id s user_id tag_id with
  | .error err => .error err
  | .ok t =>
    let t2 : Tag := { t with name := name }
    .ok (t2, { s with tags := s.tags.map (fun x => if x.id == t.id then t2 else x) })

/-- `expense_service.delete_tag`.  The `expense_tag` association rows of
the tag are removed with it. -/
def delete_tag (s : DB) (user_id tag_id : Nat) : Except Err DB :=
  match get_tag_by_id s user_id tag_id with
  | .error err => .error err
  | .ok t =>
    .ok { s with
      tags := s.tags.filter (fun x => x.id != t.id)
      expenses := s.expenses.map (fun e =>
        { e with tag_ids := e.tag_ids.filter (fun i => i != t.id) }) }

/-- `income_service.update_income`. -/
def update_income (s : DB) (user_id income_id : Nat)
    (data : UpdateIncomeSchema) : Except Err (Income × DB) :=
  match get_income_by_id s user_id income_id with
  | .error err => .error err
  | .ok income =>
    if data.source = Patch.null ∨ data.amount = Patch.null ∨ data.date = Patch.null then
      .error .integrityViolation
    else
      let i2 : Income :=
        { income with
          source := match data.source with | .value v => v | _ => income.source
          amount := match data.amount with | .value v => v | _ => income.amount
          date := match data.date with | .value v => v | _ => income.date
          description := data.description.toOptFlat income.description }
      .ok (i2, { s with incomes := s.incomes.map (fun i => if i.id == income.id then i2 else i) })

/-- `income_service.delete_income`. -/
def delete_income (s : DB) (user_id income_id : Nat) : Except Err DB :=
  match get_income_by_id s user_id income_id with
  | .error err => .error err
  | .ok income =>
    .ok { s with incomes := s.incomes.filter (fun i => i.id != income.id) }

/-- `start_date <= d <= end_date`. -/
def in_date_range (d1 d2 d : CalDate) : Bool :=
  decide (CalDate.le d1 d) && decide (CalDate.le d d2)

/-- Row of `get_expense_summary_by_category`'s result, before the
Python-side `float(...)` conversion: the SQL `SUM` of `Numeric(10,2)`
amounts is exact, in cents. -/
structure CatSummaryRow where
  category_name : String
  total_amount : Int
  count : Nat
deriving DecidableEq, Repr

/-- The `FROM expense JOIN category ON expense.category_id = category.id`
rows of `get_expense_summary_by_category`, after its `WHERE` filters,
projected to `(category.name, expense.amount)`. -/
def summary_pairs (s : DB) (user_id : Nat) (d1 d2 : CalDate) :
    List (String × Int) :=
  s.expenses.flatMap (fun e =>
    s.categories.filterMap (fun c =>
      if e.category_id == some c.id && e.user_id == user_id &&
          in_date_range d1 d2 e.date && e.active_status then
        some (c.name, e.amount)
      else none))

/-- Descending order on summary totals (`ORDER BY SUM(amount) DESC`). -/
def cat_row_order (a b : CatSummaryRow) : Prop := b.total_amount ≤ a.total_amount

instance : DecidableRel cat_row_order := fun a b => by
  unfold cat_row_order; infer_instance

/-- `summary_service.get_expense_summary_by_category`, up to the final
`float(total)` conversion (totals kept as exact cents). -/
def get_expense_summary_by_category (s : DB) (user_id : Nat)
    (d1 d2 : CalDate) : List CatSummaryRow :=
  let pairs := summary_pairs s user_id d1 d2
  let rows : List CatSummaryRow := ((pairs.map (·.1)).dedup).map (fun n =>
    { category_name := n
      total_amount := ((pairs.filter (fun p => p.1 == n)).map (·.2)).sum
      count := (pairs.filter (fun p => p.1 == n)).length })
  List.insertionSort cat_row_order rows

/-- Join rows of `get_monthly_summary_by_category` (`.join(Category)`
joins along the `Expense.category_id = Category.id` relationship),
projected to `(category.name, expense.amount)`. -/
def monthly_pairs (s : DB) (user_id : Nat) (y m : Nat) : List (String × Int) :=
  s.expenses.flatMap (fun e =>
    s.categories.filterMap (fun c =>
      if e.category_id == some c.id && e.user_id == user_id &&
          e.date.year == y && e.date.month == m then
        some (c.name, e.amount)
      else none))

/-- Descending order on `(name, total)` pairs by total. -/
def pair_total_order (a b : String × Int) : Prop := b.2 ≤ a.2

instance : DecidableRel pair_total_order := fun a b => by
  unfold pair_total_order; infer_instance

/-- `summary_service.get_monthly_summary_by_category`, up to the final
`float(total)` conversion. -/
def get_monthly_summary_by_category (s : DB) (user_id : Nat) (y m : Nat) :
    List (String × Int) :=
  let pairs := monthly_pairs s user_id y m
  let rows : List (String × Int) := ((pairs.map (·.1)).dedup).map (fun n =>
    (n, ((pairs.filter (fun p => p.1 == n)).map (·.2)).sum))
  List.insertionSort pair_total_order rows

/-- Ascending date order for `get_spending_over_time`'s `ORDER BY`. -/
instance : IsTotal CalDate CalDate.le := by
  constructor
  intro a b
  unfold CalDate.le lex4
  omega

/-- `summary_service.get_spending_over_time`, up to the final
`float(total)` conversion (per-day totals kept as exact cents). -/
def get_spending_over_time (s : DB) (user_id : Nat) (d1 d2 : CalDate) :
    List (CalDate × Int) :=
  let rows : List Expense := s.expenses.filter (fun e =>
    e.user_id == user_id && in_date_range d1 d2 e.date)
  let dates := List.insertionSort CalDate.le ((rows.map (·.date)).dedup)
  dates.map (fun d => (d, ((rows.filter (fun e => e.date == d)).map (·.amount)).sum))

/-- Total spent by `user_id` on day `d` within the range, in cents: the
value `get_spending_over_time` reports for that day. -/
def day_total (s : DB) (user_id : Nat) (d1 d2 : CalDate) (d : CalDate) : Int :=
  (((s.expenses.filter (fun e => e.user_id == user_id && in_date_range d1 d2 e.date)).filter
      (fun e => e.date == d)).map (·.amount)).sum

/-- Store extended by one more expense row. -/
def add_expense_row (s : DB) (e : Expense) : DB :=
  { s with expenses := s.expenses ++ [e] }

/-- A finite IEEE-754 binary64 value: `m * 2 ^ e` with 53-bit mantissa.
Python's `float(...)`, applied by the summary service to each Decimal
sum, always returns a value of this shape. -/
structure Float64 where
  m : Int
  e : Int
  m_bound : m.natAbs < 2 ^ 53

/-- Rational value of a binary64 float. -/
def Float64.val (f : Float64) : ℚ := (f.m : ℚ) * (2 : ℚ) ^ f.e

/-- Exact decimal value of a `Numeric(10,2)` amount of `n` cents. -/
def centsToRat (n : Int) : ℚ := (n : ℚ) / 100

instance : IsTotal Expense expense_order :=
  ⟨fun a b => by unfold expense_order lex4; omega⟩

instance : IsTrans Expense expense_order :=
  ⟨fun a b c hab hbc => by
    unfold expense_order lex4 at hab hbc ⊢; omega⟩

instance : IsTotal Budget budget_order :=
  ⟨fun a b => by unfold budget_order lex4; omega⟩

instance : IsTrans Budget budget_order :=
  ⟨fun a b c hab hbc => by
    unfold budget_order lex4 at hab hbc ⊢; omega⟩

instance : IsTotal Category category_order :=
  ⟨fun a b => le_total a.name b.name⟩

instance : IsTrans Category category_order :=
  ⟨fun _ _ _ hab hbc => le_trans hab hbc⟩

instance : IsTotal Tag tag_order :=
  ⟨fun a b => le_total a.name b.name⟩

instance : IsTrans Tag tag_order :=
  ⟨fun _ _ _ hab hbc => le_trans hab hbc⟩

instance : IsTrans CalDate CalDate.le :=
  ⟨fun a b c hab hbc => by
    unfold CalDate.le lex4 at hab hbc ⊢; omega⟩

/-! Concrete demonstration data used by witnesses and examples. -/

/-- A blank store. -/
def emptyDB : DB := ⟨[], [], [], [], []⟩

/-- Expense dated 2024-01-01 (the older of the two-item listing). -/
def exJan : Expense :=
  { id := 1, user_id := 1, name := "Jan", amount := 500,
    date := ⟨2024, 1, 1⟩, description := none, merchant := none,
    active_status := true, category_id := none, tag_ids := [] }

/-- Expense dated 2024-02-01 (the newer one, listed first). -/
def exFeb : Expense :=
  { id := 2, user_id := 1, name := "Feb", amount := 700,
    date := ⟨2024, 2, 1⟩, description := none, merchant := none,
    active_status := true, category_id := none, tag_ids := [] }

/-- Two-expense store for the pagination example. -/
def sPage : DB := ⟨[exJan, exFeb], [], [], [], []⟩

/-- Store whose every entity (id 5) belongs to user 2. -/
def sOther : DB :=
  ⟨[{ id := 5, user_id := 2, name := "E", amount := 100, date := ⟨2024, 1, 1⟩,
      description := none, merchant := none, active_status := true,
      category_id := none, tag_ids := [] }],
   [{ id := 5, user_id := 2, name := "C" }],
   [{ id := 5, user_id := 2, name := "T" }],
   [{ id := 5, user_id := 2, source := "S", amount := 100,
      date := ⟨2024, 1, 1⟩, description := none }],
   [{ id := 5, user_id := 2, amount := 100, year := 2024, month := 1,
      category_id := none }]⟩

/-- Store holding user 1's overall budget for 2024-05. -/
def sBudget : DB :=
  ⟨[], [], [], [],
   [{ id := 1, user_id := 1, amount := 1000, year := 2024, month := 5,
      category_id := none }]⟩

/-- Overall budget of user 1 for 2024-01. -/
def bJan : Budget :=
  { id := 1, user_id := 1, amount := 1000, year := 2024, month := 1,
    category_id := none }

/-- Overall budget of user 1 for 2024-02. -/
def bFeb : Budget :=
  { id := 2, user_id := 1, amount := 1000, year := 2024, month := 2,
    category_id := none }

/-- Two budgets of user 1: 2024-01 and 2024-02, both overall. -/
def sTwoBudgets : DB := ⟨[], [], [], [], [bJan, bFeb]⟩

/-- Two tags of user 1. -/
def sTags : DB :=
  ⟨[], [],
   [{ id := 1, user_id := 1, name := "urgent" },
    { id := 2, user_id := 1, name := "work" }],
   [], []⟩

/-- An expense of user 1 with a description, a merchant and a tag. -/
def expMilk : Expense :=
  { id := 1, user_id := 1, name := "Milk", amount := 1525,
    date := ⟨2024, 3, 10⟩, description := some "weekly",
    merchant := some "store", active_status := true,
    category_id := none, tag_ids := [7] }

/-- Store holding `expMilk` and its tag. -/
def sExp : DB :=
  ⟨[expMilk], [], [{ id := 7, user_id := 1, name := "urgent" }], [], []⟩

/-- The payload whose only provided field is `description`, given as
`null`. -/
def description_null_payload : UpdateExpenseSchema :=
  { name := .absent, amount := .absent, description := .null,
    category_id := .absent, active_status := .absent, date := .absent,
    tag_ids := .absent }

/-- An uncategorised expense of user 1 on 2024-01-15. -/
def expNoCat : Expense :=
  { id := 2, user_id := 1, name := "Cash", amount := 77,
    date := ⟨2024, 1, 15⟩, description := none, merchant := none,
    active_status := true, category_id := none, tag_ids := [] }

/-- Store with one categorised 10-cent expense (summary total 0.10). -/
def sTenCents : DB :=
  ⟨[{ id := 1, user_id := 1, name := "Gum", amount := 10,
      date := ⟨2024, 1, 15⟩, description := none, merchant := none,
      active_status := true, category_id := some 1, tag_ids := [] }],
   [{ id := 1, user_id := 1, name := "Food" }], [], [], []⟩

/-- Store with one categorised 25-cent expense (summary total 0.25). -/
def sQuarter : DB :=
  ⟨[{ id := 1, user_id := 1, name := "Gum", amount := 25,
      date := ⟨2024, 1, 15⟩, description := none, merchant := none,
      active_status := true, category_id := some 1, tag_ids := [] }],
   [{ id := 1, user_id := 1, name := "Food" }], [], [], []⟩

/-- Expense referencing category 1. -/
def expGro : Expense :=
  { id := 1, user_id := 1, name := "A", amount := 100,
    date := ⟨2024, 1, 1⟩, description := none, merchant := none,
    active_status := true, category_id := some 1, tag_ids := [] }

/-- Expense referencing category 2. -/
def expTrv : Expense :=
  { id := 2, user_id := 1, name := "B", amount := 200,
    date := ⟨2024, 1, 2⟩, description := none, merchant := none,
    active_status := true, category_id := some 2, tag_ids := [] }

/-- Budget scoped to category 1. -/
def budGro : Budget :=
  { id := 1, user_id := 1, amount := 1000, year := 2024, month := 1,
    category_id := some 1 }

/-- Budget scoped to category 2. -/
def budTrv : Budget :=
  { id := 2, user_id := 1, amount := 2000, year := 2024, month := 1,
    category_id := some 2 }

/-- Category 1 of user 1, with a budget and an expense referencing it;
plus a second category with its own budget and expense. -/
def sCat : DB :=
  ⟨[expGro, expTrv],
   [{ id := 1, user_id := 1, name := "Groceries" },
    { id := 2, user_id := 1, name := "Travel" }],
   [],
   [],
   [budGro, budTrv]⟩

/-! Theorems. -/

/-- C1: at most one budget per (user, year, month, category-or-null)
scope.  If some budget of `uid` already occupies the scope requested by
`data`, `create_budget` fails with `AlreadyExists`; the message starts
with "Overall" when the scope has no category and with "Categorical"
otherwise, and no budget is added (the store is returned only on
success, so an error leaves it untouched). -/
theorem C1_budget_scope_conflict (s : DB) (uid : Nat)
    (data : CreateBudgetSchema) (nid : Nat)
    (h : ∃ b ∈ s.budgets, b.user_id = uid ∧ b.year = data.year ∧
      b.month = data.month ∧ b.category_id = data.category_id) :
    create_budget s uid data nid =
      .error (.alreadyExists (overall_or_categorical data.category_id ++
        " budget already exists for " ++ toString data.year ++ "-" ++
        toString data.month)) ∧
    (data.category_id = none →
      overall_or_categorical data.category_id = "Overall") ∧
    (∀ c, data.category_id = some c →
      overall_or_categorical data.category_id = "Categorical") ∧
    (∀ r, create_budget s uid data nid ≠ .ok r) := by
  obtain ⟨b, hb, h1, h2, h3⟩ := h
  have hmem : b ∈ s.budgets.filter (fun b =>
      b.user_id == uid && some b.year == some data.year &&
        some b.month == some data.month && b.category_id == data.category_id) := by
    refine List.mem_filter.2 ⟨hb, ?_⟩
    simp [h1, h2, h3]
  have hmain : create_budget s uid data nid =
      .error (.alreadyExists (conflict_msg data.category_id
        (some data.year) (some data.month))) := by
    unfold create_budget check_for_conflicting_budget
    cases hq : s.budgets.filter (fun b =>
        b.user_id == uid && some b.year == some data.year &&
          some b.month == some data.month && b.category_id == data.category_id) with
    | nil => rw [hq] at hmem; cases hmem
    | cons x xs => simp [hq, Bind.bind, Except.bind]
  refine ⟨?_, ?_, ?_, ?_⟩
  · rw [hmain]
    simp [conflict_msg, opt_nat_str]
  · intro hnone
    simp [overall_or_categorical, hnone]
  · intro c hc
    simp [overall_or_categorical, hc]
  · intro r hr
    rw [hmain] at hr
    cases hr

/-- Witness for C1 at a concrete store: user 1 already holds the overall
budget for 2024-05, so creating another one fails with the "Overall"
message, and a categorical scope is reported as "Categorical". -/
theorem C1_budget_scope_conflict_witness :
    create_budget sBudget 1 ⟨500, 2024, 5, none⟩ 9 =
      .error (.alreadyExists "Overall budget already exists for 2024-5") ∧
    overall_or_categorical (some 3) = "Categorical" := by
  have h := C1_budget_scope_conflict sBudget 1 ⟨500, 2024, 5, none⟩ 9
    ⟨{ id := 1, user_id := 1, amount := 1000, year := 2024, month := 5,
       category_id := none }, by decide, by decide⟩
  exact ⟨h.1, by decide⟩

/-- C4: `get_tags_by_ids` on the empty set returns the empty list; if any
requested id has no matching tag owned by the user it fails with
`NotFound` whose message lists exactly the invalid ids in ascending
order; otherwise it returns exactly the tags with the requested ids (a
permutation of the owned rows whose ids were requested). -/
theorem C4_tag_resolution (s : DB) (uid : Nat) (ids : Finset Nat) :
    get_tags_by_ids s uid (some (∅ : Finset Nat)) = .ok [] ∧
    ((∃ i ∈ ids, ¬ ∃ t ∈ s.tags, t.id = i ∧ t.user_id = uid) →
      get_tags_by_ids s uid (some ids) = .error (.notFound
        ("One or more invalid tag ids: " ++ id_list_repr
          ((ids.filter (fun i => ¬ ∃ t ∈ s.tags, t.id = i ∧ t.user_id = uid)).sort (· ≤ ·))))) ∧
    ((∀ i ∈ ids, ∃ t ∈ s.tags, t.id = i ∧ t.user_id = uid) → ids ≠ ∅ →
      ∃ l, get_tags_by_ids s uid (some ids) = .ok l ∧
        l.Perm (s.tags.filter (fun t => decide (t.id ∈ ids)))) := by
  refine ⟨by simp [get_tags_by_ids], ?_, ?_⟩
  · rintro ⟨i, hi, hbad⟩
    have hne : ids ≠ ∅ := Finset.ne_empty_of_mem hi
    have hsub : owned_tag_ids s uid ids ⊆ ids := Finset.filter_subset _ _
    have hss : owned_tag_ids s uid ids ⊂ ids := by
      refine Finset.ssubset_iff_of_subset hsub |>.2 ⟨i, hi, ?_⟩
      simp only [owned_tag_ids, Finset.mem_filter]
      rintro ⟨-, hex⟩
      exact hbad hex
    have hcard : (owned_tag_ids s uid ids).card ≠ ids.card :=
      Nat.ne_of_lt (Finset.card_lt_card hss)
    have hdiff : ids \ owned_tag_ids s uid ids =
        ids.filter (fun i => ¬ ∃ t ∈ s.tags, t.id = i ∧ t.user_id = uid) := by
      rw [Finset.filter_not]
      rfl
    simp only [get_tags_by_ids, validate_tags, if_neg hne]
    rw [if_pos hcard, hdiff]
  · intro hall hne
    have hfetch : owned_tag_ids s uid ids = ids :=
      Finset.filter_true_of_mem hall
    have hcard : ¬ (owned_tag_ids s uid ids).card ≠ ids.card := by
      rw [hfetch]
      exact fun h => h rfl
    have hok : get_tags_by_ids s uid (some ids) = .ok (List.insertionSort
        tag_order (s.tags.filter (fun t => decide (t.id ∈ owned_tag_ids s uid ids)))) := by
      simp only [get_tags_by_ids, validate_tags, if_neg hne]
      rw [if_neg hcard]
    rw [hfetch] at hok
    exact ⟨_, hok, List.perm_insertionSort _ _⟩

/-- Inversion of a successful `update_expense`: how every field of the
updated row is determined by the payload and the previous row. -/
theorem update_expense_ok_fields (s : DB) (uid eid : Nat)
    (p : UpdateExpenseSchema) (e e' : Expense) (s' : DB)
    (hget : get_expense_by_id s uid eid = .ok e)
    (h : update_expense s uid eid p = .ok (e', s')) :
    e'.id = e.id ∧ e'.user_id = e.user_id ∧ e'.merchant = e.merchant ∧
    e'.name = (match p.name with | .value v => v | _ => e.name) ∧
    e'.amount = (match p.amount with | .value v => v | _ => e.amount) ∧
    e'.date = (match p.date with | .value v => v | _ => e.date) ∧
    e'.active_status = (match p.active_status with | .value v => v | _ => e.active_status) ∧
    e'.description = p.description.toOptFlat e.description ∧
    (p.category_id = .absent → e'.category_id = e.category_id) ∧
    (p.tag_ids = .absent → e'.tag_ids = e.tag_ids) ∧
    (p.tag_ids = .null → e'.tag_ids = []) := by
  unfold update_expense at h
  rw [hget] at h
  dsimp only [] at h
  cases hcv : ((match p.category_id with
      | Patch.absent => .ok e.category_id
      | Patch.null =>
        (get_category_by_id s uid none).map (fun c => c.map (·.id))
      | Patch.value v =>
        (get_category_by_id s uid (some v)).map (fun c => c.map (·.id))) :
      Except Err (Option Nat)) with
  | error err =>
    rw [hcv] at h
    cases h
  | ok nc =>
    rw [hcv] at h
    dsimp only [] at h
    cases htv : ((match p.tag_ids with
        | Patch.absent => .ok e.tag_ids
        | Patch.null =>
          (get_tags_by_ids s uid none).map (fun ts => ts.map (·.id))
        | Patch.value v =>
          (get_tags_by_ids s uid (some v)).map (fun ts => ts.map (·.id))) :
        Except Err (List Nat)) with
    | error err =>
      rw [htv] at h
      cases h
    | ok nt =>
      rw [htv] at h
      dsimp only [] at h
      split at h
      · cases h
      · rw [Except.ok.injEq, Prod.mk.injEq] at h
        obtain ⟨he, -⟩ := h
        subst he
        refine ⟨rfl, rfl, rfl, rfl, rfl, rfl, rfl, rfl, ?_, ?_, ?_⟩
        · intro hca
          rw [hca] at hcv
          cases hcv
          rfl
        · intro hta
          rw [hta] at htv
          cases htv
          rfl
        · intro htn
          rw [htn] at htv
          simp [get_tags_by_ids, Except.map] at htv
          simp [htv]

/-- C5: partial update of an expense is tri-state per field.  Whenever
`update_expense` succeeds, a `description` explicitly provided as null is
set to null, a provided value is stored, and every omitted field —
including `merchant`, which the update schema does not carry at all —
keeps its original value. -/
theorem C5_partial_update_tristate (s : DB) (uid eid : Nat)
    (p : UpdateExpenseSchema) (e e' : Expense) (s' : DB)
    (hget : get_expense_by_id s uid eid = .ok e)
    (h : update_expense s uid eid p = .ok (e', s')) :
    (p.description = .null → e'.description = none) ∧
    (∀ v, p.description = .value v → e'.description = some v) ∧
    (p.description = .absent → e'.description = e.description) ∧
    (p.name = .absent → e'.name = e.name) ∧
    (p.amount = .absent → e'.amount = e.amount) ∧
    (p.date = .absent → e'.date = e.date) ∧
    (p.active_status = .absent → e'.active_status = e.active_status) ∧
    (p.category_id = .absent → e'.category_id = e.category_id) ∧
    (p.tag_ids = .absent → e'.tag_ids = e.tag_ids) ∧
    e'.merchant = e.merchant ∧ e'.id = e.id ∧ e'.user_id = e.user_id := by
  obtain ⟨hid, huid, hmer, hname, ham, hdate, hact, hdesc, hcat, htags, -⟩ :=
    update_expense_ok_fields s uid eid p e e' s' hget h
  refine ⟨?_, ?_, ?_, ?_, ?_, ?_, ?_, hcat, htags, hmer, hid, huid⟩
  · intro hd
    rw [hdesc, hd]
    rfl
  · intro v hd
    rw [hdesc, hd]
    rfl
  · intro hd
    rw [hdesc, hd]
    rfl
  · intro hn
    rw [hname, hn]
  · intro hn
    rw [ham, hn]
  · intro hn
    rw [hdate, hn]
  · intro hn
    rw [hact, hn]

/-- Witness for C5 at a concrete store: updating `expMilk` with a payload
that provides only `description = null` clears the description and leaves
name, amount, merchant and tags untouched. -/
theorem C5_partial_update_tristate_witness :
    ∃ r, update_expense sExp 1 1 description_null_payload = .ok r ∧
      r.1.description = none ∧ r.1.name = "Milk" ∧ r.1.amount = 1525 ∧
      r.1.merchant = some "store" ∧ r.1.tag_ids = [7] := by
  have hget : get_expense_by_id sExp 1 1 = .ok expMilk := by decide
  have hupd : update_expense sExp 1 1 description_null_payload =
      .ok ({ expMilk with description := none },
        { sExp with expenses := [{ expMilk with description := none }] }) := by
    decide
  have h := C5_partial_update_tristate sExp 1 1 description_null_payload
    expMilk _ _ hget hupd
  exact ⟨_, hupd, h.1 rfl, h.2.2.2.1 rfl, h.2.2.2.2.1 rfl,
    h.2.2.2.2.2.2.2.2.2.1, by decide⟩

/-- C9: an expense update whose `tag_ids` is explicitly null does not
fail on that account and replaces the expense's tag list with the empty
list (the null flows into `get_tags_by_ids`, whose falsiness check treats
it like the empty set).  Whenever such an update succeeds the resulting
tag list is empty, and the payload carrying only `tag_ids = null`
succeeds outright. -/
theorem C9_tag_ids_null_clears_tags (s : DB) (uid eid : Nat)
    (e : Expense) (hget : get_expense_by_id s uid eid = .ok e) :
    (∀ p : UpdateExpenseSchema, ∀ e' : Expense, ∀ s' : DB,
      p.tag_ids = .null → update_expense s uid eid p = .ok (e', s') →
        e'.tag_ids = []) ∧
    update_expense s uid eid tag_ids_null_payload =
      .ok ({ e with tag_ids := [] },
        { s with expenses := s.expenses.map (fun x =>
          if x.id == e.id then { e with tag_ids := [] } else x) }) := by
  constructor
  · intro p e' s' hnull h
    exact (update_expense_ok_fields s uid eid p e e' s' hget h).2.2.2.2.2.2.2.2.2.2 hnull
  · unfold update_expense
    rw [hget]
    simp [tag_ids_null_payload, get_tags_by_ids, Except.map, Patch.toOptFlat]

/-- Witness for C9 at a concrete store: updating `expMilk` (which has tag
7) with the `tag_ids = null` payload succeeds and empties its tag list. -/
theorem C9_tag_ids_null_clears_tags_witness :
    update_expense sExp 1 1 tag_ids_null_payload =
      .ok ({ expMilk with tag_ids := [] },
        { sExp with expenses := [{ expMilk with tag_ids := [] }] }) ∧
    ({ expMilk with tag_ids := ([] : List Nat) }).tag_ids = [] := by
  have hget : get_expense_by_id sExp 1 1 = .ok expMilk := by decide
  have h := C9_tag_ids_null_clears_tags sExp 1 1 expMilk hget
  refine ⟨?_, rfl⟩
  exact h.2

/-- A provided field reads as set. -/
theorem patch_ne_absent_isSet {α : Type} {p : Patch α} (h : p ≠ .absent) :
    p.isSet = true := by
  cases p
  · exact absurd rfl h
  · rfl
  · rfl

/-- C3: budget update conflict checking.  If the payload touches year,
month or category and the resulting scope (omitted components taken from
the current budget) coincides with another budget of the same user, the
update fails with `AlreadyExists`; if no other budget collides — the
budget being updated is excluded, so keeping its own scope is fine — the
update succeeds; and when none of the three scope fields is in the
payload no check happens and the update succeeds regardless of other
budgets' scopes.  `bid ≠ 0` reflects the Python truthiness guard on the
excluded id (database ids start at 1). -/
theorem C3_budget_update_conflict (s : DB) (uid bid : Nat)
    (p : UpdateBudgetSchema) (b : Budget)
    (hget : get_budget_by_id s uid bid = .ok b) (hbid : bid ≠ 0) :
    ((p.year ≠ .absent ∨ p.month ≠ .absent ∨ p.category_id ≠ .absent) →
      (∃ b' ∈ s.budgets, b'.user_id = uid ∧ b'.id ≠ bid ∧
        some b'.year = p.year.toOption b.year ∧
        some b'.month = p.month.toOption b.month ∧
        b'.category_id = p.category_id.toOptFlat b.category_id) →
      update_budget s uid bid p = .error (.alreadyExists
        (conflict_msg (p.category_id.toOptFlat b.category_id)
          (p.year.toOption b.year) (p.month.toOption b.month)))) ∧
    ((∀ b' ∈ s.budgets, b'.user_id = uid → b'.id ≠ bid →
        ¬ (some b'.year = p.year.toOption b.year ∧
           some b'.month = p.month.toOption b.month ∧
           b'.category_id = p.category_id.toOptFlat b.category_id)) →
      (∀ v, p.category_id = .value v →
        ∃ c ∈ s.categories, c.user_id = uid ∧ c.id = v) →
      p.amount ≠ .null → p.year ≠ .null → p.month ≠ .null →
      ∃ r, update_budget s uid bid p = .ok r) ∧
    (p.year = .absent → p.month = .absent → p.category_id = .absent →
      p.amount ≠ .null →
      ∃ r, update_budget s uid bid p = .ok r) := by
  refine ⟨?_, ?_, ?_⟩
  · rintro hset ⟨b', hb'mem, hb'u, hb'id, hb'y, hb'm, hb'c⟩
    have hcond : (p.year.isSet || p.month.isSet || p.category_id.isSet) = true := by
      rcases hset with h | h | h <;> simp [patch_ne_absent_isSet h]
    have hmem : b' ∈ (s.budgets.filter (fun x =>
        x.user_id == uid && some x.year == p.year.toOption b.year &&
          some x.month == p.month.toOption b.month &&
          x.category_id == p.category_id.toOptFlat b.category_id)).filter
        (fun x => x.id != bid) := by
      refine List.mem_filter.2 ⟨List.mem_filter.2 ⟨hb'mem, ?_⟩, ?_⟩
      · simp [hb'u, hb'y, hb'm, hb'c]
      · simp [hb'id]
    have hchk : check_for_conflicting_budget s uid (p.year.toOption b.year)
        (p.month.toOption b.month) (p.category_id.toOptFlat b.category_id)
        (some bid) = .error (.alreadyExists
          (conflict_msg (p.category_id.toOptFlat b.category_id)
            (p.year.toOption b.year) (p.month.toOption b.month))) := by
      unfold check_for_conflicting_budget
      dsimp only []
      rw [if_pos hbid]
      cases hql : (s.budgets.filter (fun x =>
          x.user_id == uid && some x.year == p.year.toOption b.year &&
            some x.month == p.month.toOption b.month &&
            x.category_id == p.category_id.toOptFlat b.category_id)).filter
          (fun x => x.id != bid) with
      | nil => rw [hql] at hmem; cases hmem
      | cons x xs => rfl
    unfold update_budget
    rw [hget]
    dsimp only []
    rw [if_pos hcond, hchk]
  · intro hno hcat hma hya hmo
    unfold update_budget
    rw [hget]
    dsimp only []
    have hchk : (if p.year.isSet || p.month.isSet || p.category_id.isSet then
        check_for_conflicting_budget s uid (p.year.toOption b.year)
          (p.month.toOption b.month) (p.category_id.toOptFlat b.category_id)
          (some bid)
      else .ok ()) = .ok () := by
      by_cases hcb : (p.year.isSet || p.month.isSet || p.category_id.isSet) = true
      case neg => rw [if_neg hcb]
      case pos =>
        rw [if_pos hcb]
        unfold check_for_conflicting_budget
        dsimp only []
        rw [if_pos hbid]
        have hnil : (s.budgets.filter (fun x =>
            x.user_id == uid && some x.year == p.year.toOption b.year &&
              some x.month == p.month.toOption b.month &&
              x.category_id == p.category_id.toOptFlat b.category_id)).filter
            (fun x => x.id != bid) = [] := by
          rw [List.filter_eq_nil_iff]
          intro x hx
          have hx1 := List.mem_filter.1 hx
          have hx2 := hx1.2
          simp only [Bool.and_eq_true, beq_iff_eq] at hx2
          obtain ⟨⟨⟨hxu, hxy⟩, hxm⟩, hxc⟩ := hx2
          simp only [bne_iff_ne, ne_eq, not_not]
          by_contra hne
          exact hno x hx1.1 hxu (by simpa using hne) ⟨hxy, hxm, hxc⟩
        rw [hnil]
    rw [hchk]
    dsimp only []
    have hcatok : ∃ nc, ((match p.category_id with
        | Patch.absent => .ok b.category_id
        | Patch.null =>
          (get_category_by_id s uid none).map (fun c => c.map (·.id))
        | Patch.value v =>
          (get_category_by_id s uid (some v)).map (fun c => c.map (·.id))) :
        Except Err (Option Nat)) = .ok nc := by
      cases hpc : p.category_id with
      | absent => exact ⟨_, rfl⟩
      | null => exact ⟨none, rfl⟩
      | value v =>
        obtain ⟨c, hcmem, hcu, hcid⟩ := hcat v hpc
        dsimp only []
        unfold get_category_by_id
        dsimp only []
        cases hfind : s.categories.find? (fun x => x.user_id == uid && x.id == v) with
        | none =>
          rw [List.find?_eq_none] at hfind
          exact absurd (by simp [hcu, hcid]) (hfind c hcmem)
        | some c' => exact ⟨_, rfl⟩
    obtain ⟨nc, hnc⟩ := hcatok
    rw [hnc]
    dsimp only []
    rw [if_neg]
    · exact ⟨_, rfl⟩
    · rintro (h | h | h)
      · exact hma h
      · exact hya h
      · exact hmo h
  · intro hy hm hc hma
    unfold update_budget
    rw [hget]
    dsimp only []
    rw [if_neg]
    · rw [hc]
      dsimp only []
      rw [if_neg]
      · exact ⟨_, rfl⟩
      · rintro (h | h | h)
        · exact hma h
        · rw [hy] at h; cases h
        · rw [hm] at h; cases h
    · simp [hy, hm, hc, Patch.isSet]

/-- Witness for C3 at a concrete store: moving the 2024-02 budget onto
the occupied 2024-01 scope fails with `AlreadyExists`; re-asserting its
own scope succeeds; an amount-only update succeeds without any check. -/
theorem C3_budget_update_conflict_witness :
    update_budget sTwoBudgets 1 2 ⟨.absent, .absent, .value 1, .absent⟩ =
      .error (.alreadyExists "Overall budget already exists for 2024-1") ∧
    (∃ r, update_budget sTwoBudgets 1 2 ⟨.absent, .value 2024, .value 2, .absent⟩ = .ok r) ∧
    (∃ r, update_budget sTwoBudgets 1 2 ⟨.value 999, .absent, .absent, .absent⟩ = .ok r) := by
  have hget : get_budget_by_id sTwoBudgets 1 2 = .ok bFeb := by decide
  have h1 := C3_budget_update_conflict sTwoBudgets 1 2
    ⟨.absent, .absent, .value 1, .absent⟩ bFeb hget (by decide)
  have h2 := C3_budget_update_conflict sTwoBudgets 1 2
    ⟨.absent, .value 2024, .value 2, .absent⟩ bFeb hget (by decide)
  have h3 := C3_budget_update_conflict sTwoBudgets 1 2
    ⟨.value 999, .absent, .absent, .absent⟩ bFeb hget (by decide)
  refine ⟨?_, ?_, ?_⟩
  · rw [h1.1 (by decide) ⟨bJan, by decide, by decide, by decide, by decide,
      by decide, by decide⟩]
    decide
  · exact h2.2.1 (by decide) (fun v hv => Patch.noConfusion hv)
      (by decide) (by decide) (by decide)
  · exact h3.2.2 rfl rfl rfl (by decide)

/-- When no expense row matches (id, owner), the lookup fails with the
id-and-requester-determined message. -/
theorem get_expense_not_owned (s : DB) (a eid : Nat)
    (h : ∀ x ∈ s.expenses, ¬ (x.user_id = a ∧ x.id = eid)) :
    get_expense_by_id s a eid = .error (.notFound (expense_not_found_msg a eid)) := by
  unfold get_expense_by_id
  have hf : s.expenses.find? (fun x => x.user_id == a && x.id == eid) = none := by
    rw [List.find?_eq_none]
    intro x hx
    simp only [Bool.and_eq_true, beq_iff_eq]
    exact h x hx
  rw [hf]

/-- When no category row matches (id, owner), the lookup fails with the
id-determined message. -/
theorem get_category_not_owned (s : DB) (a cid : Nat)
    (h : ∀ x ∈ s.categories, ¬ (x.user_id = a ∧ x.id = cid)) :
    get_category_by_id s a (some cid) = .error (.notFound (category_not_found_msg cid)) := by
  unfold get_category_by_id
  dsimp only []
  have hf : s.categories.find? (fun x => x.user_id == a && x.id == cid) = none := by
    rw [List.find?_eq_none]
    intro x hx
    simp only [Bool.and_eq_true, beq_iff_eq]
    exact h x hx
  rw [hf]

/-- When no tag row matches (id, owner), the lookup fails with the
id-determined message. -/
theorem get_tag_not_owned (s : DB) (a tid : Nat)
    (h : ∀ x ∈ s.tags, ¬ (x.user_id = a ∧ x.id = tid)) :
    get_tag_by_id s a tid = .error (.notFound (tag_not_found_msg tid)) := by
  unfold get_tag_by_id
  have hf : s.tags.find? (fun x => x.user_id == a && x.id == tid) = none := by
    rw [List.find?_eq_none]
    intro x hx
    simp only [Bool.and_eq_true, beq_iff_eq]
    exact h x hx
  rw [hf]

/-- When no income row matches (id, owner), the lookup fails with the
id-determined message. -/
theorem get_income_not_owned (s : DB) (a iid : Nat)
    (h : ∀ x ∈ s.incomes, ¬ (x.user_id = a ∧ x.id = iid)) :
    get_income_by_id s a iid = .error (.notFound (income_not_found_msg iid)) := by
  unfold get_income_by_id
  have hf : s.incomes.find? (fun x => x.user_id == a && x.id == iid) = none := by
    rw [List.find?_eq_none]
    intro x hx
    simp only [Bool.and_eq_true, beq_iff_eq]
    exact h x hx
  rw [hf]

/-- When no budget row matches (id, owner), the lookup fails with the
id-and-requester-determined message. -/
theorem get_budget_not_owned (s : DB) (a bid : Nat)
    (h : ∀ x ∈ s.budgets, ¬ (x.user_id = a ∧ x.id = bid)) :
    get_budget_by_id s a bid = .error (.notFound (budget_not_found_msg a bid)) := by
  unfold get_budget_by_id
  have hf : s.budgets.find? (fun x => x.user_id == a && x.id == bid) = none := by
    rw [List.find?_eq_none]
    intro x hx
    simp only [Bool.and_eq_true, beq_iff_eq]
    exact h x hx
  rw [hf]

/-- C2: cross-tenant isolation.  For users `a ≠ b` and any entity of `b`
with id `eid`, every read, update or delete of that id by `a` fails with
`NotFound`, and the error carries exactly the message produced for an id
that does not exist at all (it is a function of the requester and the id
only), so the two cases are indistinguishable; conversely a successful
read returns a row that exists and belongs to the caller. -/
theorem C2_ownership_isolation (s : DB) (a b eid : Nat)
    (hw : s.wf) (hab : a ≠ b) :
    ((∃ x ∈ s.expenses, x.id = eid ∧ x.user_id = b) →
      get_expense_by_id s a eid = .error (.notFound (expense_not_found_msg a eid)) ∧
      (∀ p, update_expense s a eid p = .error (.notFound (expense_not_found_msg a eid))) ∧
      delete_expense s a eid = .error (.notFound (expense_not_found_msg a eid))) ∧
    (∀ x, get_expense_by_id s a eid = .ok x →
      x ∈ s.expenses ∧ x.user_id = a ∧ x.id = eid) ∧
    ((∃ x ∈ s.categories, x.id = eid ∧ x.user_id = b) →
      get_category_by_id s a (some eid) = .error (.notFound (category_not_found_msg eid)) ∧
      (∀ n, update_category s a eid n = .error (.notFound (category_not_found_msg eid))) ∧
      delete_category s a eid = .error (.notFound (category_not_found_msg eid))) ∧
    (∀ co, get_category_by_id s a (some eid) = .ok co →
      ∃ c, co = some c ∧ c ∈ s.categories ∧ c.user_id = a ∧ c.id = eid) ∧
    ((∃ x ∈ s.tags, x.id = eid ∧ x.user_id = b) →
      get_tag_by_id s a eid = .error (.notFound (tag_not_found_msg eid)) ∧
      (∀ n, update_tag s a eid n = .error (.notFound (tag_not_found_msg eid))) ∧
      delete_tag s a eid = .error (.notFound (tag_not_found_msg eid))) ∧
    (∀ x, get_tag_by_id s a eid = .ok x →
      x ∈ s.tags ∧ x.user_id = a ∧ x.id = eid) ∧
    ((∃ x ∈ s.incomes, x.id = eid ∧ x.user_id = b) →
      get_income_by_id s a eid = .error (.notFound (income_not_found_msg eid)) ∧
      (∀ p, update_income s a eid p = .error (.notFound (income_not_found_msg eid))) ∧
      delete_income s a eid = .error (.notFound (income_not_found_msg eid))) ∧
    (∀ x, get_income_by_id s a eid = .ok x →
      x ∈ s.incomes ∧ x.user_id = a ∧ x.id = eid) ∧
    ((∃ x ∈ s.budgets, x.id = eid ∧ x.user_id = b) →
      get_budget_by_id s a eid = .error (.notFound (budget_not_found_msg a eid)) ∧
      (∀ p, update_budget s a eid p = .error (.notFound (budget_not_found_msg a eid))) ∧
      delete_budget s a eid = .error (.notFound (budget_not_found_msg a eid))) ∧
    (∀ x, get_budget_by_id s a eid = .ok x →
      x ∈ s.budgets ∧ x.user_id = a ∧ x.id = eid) := by
  obtain ⟨hwE, hwC, hwT, hwI, hwB⟩ := hw
  refine ⟨?_, ?_, ?_, ?_, ?_, ?_, ?_, ?_, ?_, ?_⟩
  · rintro ⟨x0, hx0, hx0id, hx0u⟩
    have hA : ∀ x ∈ s.expenses, ¬ (x.user_id = a ∧ x.id = eid) := by
      rintro x hx ⟨hxu, hxid⟩
      have hxeq : x = x0 :=
        List.inj_on_of_nodup_map hwE hx hx0 (by rw [hxid, hx0id])
      exact hab (by rw [← hxu, hxeq, hx0u])
    have hg := get_expense_not_owned s a eid hA
    refine ⟨hg, fun p => ?_, ?_⟩
    · unfold update_expense
      rw [hg]
    · unfold delete_expense
      rw [hg]
  · intro x h
    unfold get_expense_by_id at h
    cases hf : s.expenses.find? (fun y => y.user_id == a && y.id == eid) with
    | none => rw [hf] at h; cases h
    | some y =>
      rw [hf] at h
      cases h
      have hp := List.find?_some hf
      simp only [Bool.and_eq_true, beq_iff_eq] at hp
      exact ⟨List.mem_of_find?_eq_some hf, hp.1, hp.2⟩
  · rintro ⟨x0, hx0, hx0id, hx0u⟩
    have hA : ∀ x ∈ s.categories, ¬ (x.user_id = a ∧ x.id = eid) := by
      rintro x hx ⟨hxu, hxid⟩
      have hxeq : x = x0 :=
        List.inj_on_of_nodup_map hwC hx hx0 (by rw [hxid, hx0id])
      exact hab (by rw [← hxu, hxeq, hx0u])
    have hg := get_category_not_owned s a eid hA
    refine ⟨hg, fun n => ?_, ?_⟩
    · unfold update_category
      rw [hg]
    · unfold delete_category
      rw [hg]
  · intro co h
    unfold get_category_by_id at h
    dsimp only [] at h
    cases hf : s.categories.find? (fun y => y.user_id == a && y.id == eid) with
    | none => rw [hf] at h; cases h
    | some y =>
      rw [hf] at h
      cases h
      have hp := List.find?_some hf
      simp only [Bool.and_eq_true, beq_iff_eq] at hp
      exact ⟨y, rfl, List.mem_of_find?_eq_some hf, hp.1, hp.2⟩
  · rintro ⟨x0, hx0, hx0id, hx0u⟩
    have hA : ∀ x ∈ s.tags, ¬ (x.user_id = a ∧ x.id = eid) := by
      rintro x hx ⟨hxu, hxid⟩
      have hxeq : x = x0 :=
        List.inj_on_of_nodup_map hwT hx hx0 (by rw [hxid, hx0id])
      exact hab (by rw [← hxu, hxeq, hx0u])
    have hg := get_tag_not_owned s a eid hA
    refine ⟨hg, fun n => ?_, ?_⟩
    · unfold update_tag
      rw [hg]
    · unfold delete_tag
      rw [hg]
  · intro x h
    unfold get_tag_by_id at h
    cases hf : s.tags.find? (fun y => y.user_id == a && y.id == eid) with
    | none => rw [hf] at h; cases h
    | some y =>
      rw [hf] at h
      cases h
      have hp := List.find?_some hf
      simp only [Bool.and_eq_true, beq_iff_eq] at hp
      exact ⟨List.mem_of_find?_eq_some hf, hp.1, hp.2⟩
  · rintro ⟨x0, hx0, hx0id, hx0u⟩
    have hA : ∀ x ∈ s.incomes, ¬ (x.user_id = a ∧ x.id = eid) := by
      rintro x hx ⟨hxu, hxid⟩
      have hxeq : x = x0 :=
        List.inj_on_of_nodup_map hwI hx hx0 (by rw [hxid, hx0id])
      exact hab (by rw [← hxu, hxeq, hx0u])
    have hg := get_income_not_owned s a eid hA
    refine ⟨hg, fun p => ?_, ?_⟩
    · unfold update_income
      rw [hg]
    · unfold delete_income
      rw [hg]
  · intro x h
    unfold get_income_by_id at h
    cases hf : s.incomes.find? (fun y => y.user_id == a && y.id == eid) with
    | none => rw [hf] at h; cases h
    | some y =>
      rw [hf] at h
      cases h
      have hp := List.find?_some hf
      simp only [Bool.and_eq_true, beq_iff_eq] at hp
      exact ⟨List.mem_of_find?_eq_some hf, hp.1, hp.2⟩
  · rintro ⟨x0, hx0, hx0id, hx0u⟩
    have hA : ∀ x ∈ s.budgets, ¬ (x.user_id = a ∧ x.id = eid) := by
      rintro x hx ⟨hxu, hxid⟩
      have hxeq : x = x0 :=
        List.inj_on_of_nodup_map hwB hx hx0 (by rw [hxid, hx0id])
      exact hab (by rw [← hxu, hxeq, hx0u])
    have hg := get_budget_not_owned s a eid hA
    refine ⟨hg, fun p => ?_, ?_⟩
    · unfold update_budget
      rw [hg]
    · unfold delete_budget
      rw [hg]
  · intro x h
    unfold get_budget_by_id at h
    cases hf : s.budgets.find? (fun y => y.user_id == a && y.id == eid) with
    | none => rw [hf] at h; cases h
    | some y =>
      rw [hf] at h
      cases h
      have hp := List.find?_some hf
      simp only [Bool.and_eq_true, beq_iff_eq] at hp
      exact ⟨List.mem_of_find?_eq_some hf, hp.1, hp.2⟩

/-- Witness for C2 at a concrete store: every entity with id 5 belongs
to user 2, and user 1's reads, updates and deletes all yield the same
`NotFound` errors a nonexistent id would produce. -/
theorem C2_ownership_isolation_witness :
    get_expense_by_id sOther 1 5 =
      .error (.notFound "Expense with id 5 under user_id 1 not found") ∧
    (∀ n, update_category sOther 1 5 n =
      .error (.notFound "Category with id 5 not found")) ∧
    delete_tag sOther 1 5 = .error (.notFound "Tag with id 5 not found") ∧
    get_income_by_id sOther 1 5 = .error (.notFound "Income with id 5 not found") ∧
    delete_budget sOther 1 5 =
      .error (.notFound "Budget with id 5 not found for user 1") := by
  obtain ⟨hE, -, hC, -, hT, -, hI, -, hB, -⟩ :=
    C2_ownership_isolation sOther 1 2 5 (by decide) (by decide)
  refine ⟨?_, fun n => ?_, ?_, ?_, ?_⟩
  · rw [(hE (by decide)).1]
    decide
  · rw [(hC (by decide)).2.1 n]
    decide
  · rw [(hT (by decide)).2.2]
    decide
  · rw [(hI (by decide)).1]
    decide
  · rw [(hB (by decide)).2.2]
    decide

/-- C10: deleting a category deletes every budget referencing it (the
`delete-orphan` cascade on `Category.budgets`), keeps every expense —
the referencing ones survive with their category cleared — and leaves
other categories, other budgets, tags and incomes untouched. -/
theorem C10_delete_category_cascade (s : DB) (uid cid : Nat)
    (h : ∃ c ∈ s.categories, c.id = cid ∧ c.user_id = uid) :
    ∃ s', delete_category s uid cid = .ok s' ∧
      (∀ b ∈ s.budgets, b.category_id = some cid → b ∉ s'.budgets) ∧
      (∀ b ∈ s.budgets, b.category_id ≠ some cid → b ∈ s'.budgets) ∧
      (∀ b ∈ s'.budgets, b ∈ s.budgets ∧ b.category_id ≠ some cid) ∧
      s'.expenses.length = s.expenses.length ∧
      (∀ e ∈ s.expenses, e.category_id ≠ some cid → e ∈ s'.expenses) ∧
      (∀ e ∈ s.expenses, e.category_id = some cid →
        { e with category_id := none } ∈ s'.expenses) ∧
      (∀ x ∈ s'.categories, x ∈ s.categories ∧ x.id ≠ cid) ∧
      (∀ x ∈ s.categories, x.id ≠ cid → x ∈ s'.categories) ∧
      s'.tags = s.tags ∧ s'.incomes = s.incomes := by
  obtain ⟨c, hc, hcid, hcu⟩ := h
  have hsome : (s.categories.find? (fun x => x.user_id == uid && x.id == cid)).isSome := by
    rw [List.find?_isSome]
    exact ⟨c, hc, by simp [hcu, hcid]⟩
  cases hf : s.categories.find? (fun x => x.user_id == uid && x.id == cid) with
  | none => rw [hf] at hsome; cases hsome
  | some c0 =>
    have hp := List.find?_some hf
    simp only [Bool.and_eq_true, beq_iff_eq] at hp
    have hdel : delete_category s uid cid = .ok { s with
        categories := s.categories.filter (fun x => x.id != c0.id)
        budgets := s.budgets.filter (fun b => b.category_id != some c0.id)
        expenses := s.expenses.map (fun e =>
          if e.category_id == some c0.id then { e with category_id := none } else e) } := by
      unfold delete_category get_category_by_id
      dsimp only []
      rw [hf]
    rw [hp.2] at hdel
    refine ⟨_, hdel, ?_, ?_, ?_, ?_, ?_, ?_, ?_, ?_, rfl, rfl⟩
    · intro b hb hbc hmem
      have := (List.mem_filter.1 hmem).2
      rw [hbc] at this
      simp at this
    · intro b hb hbc
      exact List.mem_filter.2 ⟨hb, by simpa using hbc⟩
    · intro b hb
      have h1 := List.mem_filter.1 hb
      exact ⟨h1.1, by simpa using h1.2⟩
    · exact List.length_map _ _
    · intro e he hec
      refine List.mem_map.2 ⟨e, he, ?_⟩
      rw [if_neg (by simpa using hec)]
    · intro e he hec
      refine List.mem_map.2 ⟨e, he, ?_⟩
      rw [if_pos (by simpa using hec)]
    · intro x hx
      have h1 := List.mem_filter.1 hx
      exact ⟨h1.1, by simpa using h1.2⟩
    · intro x hx hxid
      exact List.mem_filter.2 ⟨hx, by simpa using hxid⟩

/-- Witness for C10 at a concrete store: deleting category 1 removes its
budget but not category 2's, and both expenses survive, the first with
its category reference cleared. -/
theorem C10_delete_category_cascade_witness :
    ∃ s', delete_category sCat 1 1 = .ok s' ∧
      budGro ∉ s'.budgets ∧ budTrv ∈ s'.budgets ∧
      { expGro with category_id := none } ∈ s'.expenses ∧
      expTrv ∈ s'.expenses ∧ s'.expenses.length = 2 := by
  obtain ⟨s', hdel, h1, h2, -, hlen, h5, h6, -, -, -, -⟩ :=
    C10_delete_category_cascade sCat 1 1
      ⟨{ id := 1, user_id := 1, name := "Groceries" }, by decide, rfl, rfl⟩
  exact ⟨s', hdel, h1 budGro (by decide) (by decide),
    h2 budTrv (by decide) (by decide),
    h6 expGro (by decide) (by decide),
    h5 expTrv (by decide) (by decide), hlen⟩

/-- C8: expenses without a category are silently excluded from both
category-grouped aggregations (their inner join on `Category` never
matches), while the daily time series still counts them: adding a
null-category expense row changes neither category summary, and the
daily series reports that expense's day as the previous day total plus
its amount. -/
theorem C8_null_category_excluded (s : DB) (uid : Nat) (d1 d2 : CalDate)
    (y m : Nat) (e : Expense) (hcat : e.category_id = none) :
    get_expense_summary_by_category (add_expense_row s e) uid d1 d2 =
      get_expense_summary_by_category s uid d1 d2 ∧
    get_monthly_summary_by_category (add_expense_row s e) uid y m =
      get_monthly_summary_by_category s uid y m ∧
    (e.user_id = uid → in_date_range d1 d2 e.date = true →
      ∃ row ∈ get_spending_over_time (add_expense_row s e) uid d1 d2,
        row.1 = e.date ∧
        row.2 = day_total s uid d1 d2 e.date + e.amount) := by
  refine ⟨?_, ?_, ?_⟩
  · have hpairs : summary_pairs (add_expense_row s e) uid d1 d2 =
        summary_pairs s uid d1 d2 := by
      unfold summary_pairs add_expense_row
      dsimp only []
      rw [List.flatMap_append]
      have hnil : [e].flatMap (fun x =>
          s.categories.filterMap (fun c =>
            if x.category_id == some c.id && x.user_id == uid &&
                in_date_range d1 d2 x.date && x.active_status then
              some (c.name, x.amount)
            else none)) = [] := by
        simp only [List.flatMap_cons, List.flatMap_nil, List.append_nil]
        refine List.filterMap_eq_nil_iff.mpr ?_
        intro c hc
        rw [if_neg]
        simp [hcat]
      rw [hnil, List.append_nil]
    unfold get_expense_summary_by_category
    rw [hpairs]
  · have hpairs : monthly_pairs (add_expense_row s e) uid y m =
        monthly_pairs s uid y m := by
      unfold monthly_pairs add_expense_row
      dsimp only []
      rw [List.flatMap_append]
      have hnil : [e].flatMap (fun x =>
          s.categories.filterMap (fun c =>
            if x.category_id == some c.id && x.user_id == uid &&
                x.date.year == y && x.date.month == m then
              some (c.name, x.amount)
            else none)) = [] := by
        simp only [List.flatMap_cons, List.flatMap_nil, List.append_nil]
        refine List.filterMap_eq_nil_iff.mpr ?_
        intro c hc
        rw [if_neg]
        simp [hcat]
      rw [hnil, List.append_nil]
    unfold get_monthly_summary_by_category
    rw [hpairs]
  · intro hu hr
    have hrows : (add_expense_row s e).expenses.filter (fun x =>
        x.user_id == uid && in_date_range d1 d2 x.date) =
        s.expenses.filter (fun x =>
          x.user_id == uid && in_date_range d1 d2 x.date) ++ [e] := by
      unfold add_expense_row
      dsimp only []
      rw [List.filter_append]
      congr 1
      simp [hu, hr]
    have hmem : e.date ∈ List.insertionSort CalDate.le
        (((s.expenses.filter (fun x =>
          x.user_id == uid && in_date_range d1 d2 x.date) ++ [e]).map (·.date)).dedup) := by
      rw [List.mem_insertionSort, List.mem_dedup]
      exact List.mem_map.2 ⟨e, List.mem_append.2 (Or.inr (by simp)), rfl⟩
    unfold get_spending_over_time
    dsimp only []
    rw [hrows]
    refine ⟨(e.date, (((s.expenses.filter (fun x =>
        x.user_id == uid && in_date_range d1 d2 x.date) ++ [e]).filter
        (fun x => x.date == e.date)).map (·.amount)).sum), List.mem_map.2 ⟨e.date, hmem, rfl⟩, rfl, ?_⟩
    rw [List.filter_append, List.map_append, List.sum_append]
    unfold day_total
    simp

/-- Witness for C8 at a concrete store: adding the 77-cent uncategorised
expense leaves both category summaries unchanged while the daily series
total for its day becomes 10 + 77 = 87 cents. -/
theorem C8_null_category_excluded_witness :
    get_expense_summary_by_category (add_expense_row sTenCents expNoCat) 1
      ⟨2024, 1, 1⟩ ⟨2024, 12, 31⟩ =
      get_expense_summary_by_category sTenCents 1 ⟨2024, 1, 1⟩ ⟨2024, 12, 31⟩ ∧
    get_monthly_summary_by_category (add_expense_row sTenCents expNoCat) 1 2024 1 =
      get_monthly_summary_by_category sTenCents 1 2024 1 ∧
    ∃ row ∈ get_spending_over_time (add_expense_row sTenCents expNoCat) 1
        ⟨2024, 1, 1⟩ ⟨2024, 12, 31⟩,
      row.1 = ⟨2024, 1, 15⟩ ∧ row.2 = 87 := by
  have h := C8_null_category_excluded sTenCents 1 ⟨2024, 1, 1⟩ ⟨2024, 12, 31⟩
    2024 1 expNoCat rfl
  obtain ⟨row, hmem, hd, hsum⟩ := h.2.2 rfl (by decide)
  refine ⟨h.1, h.2.1, row, hmem, by rw [hd]; decide, ?_⟩
  rw [hsum]
  decide

/-- A binary64 float can equal the exact decimal value of `n` cents only
when 25 divides `n` (the value `n/100` must be a dyadic rational). -/
theorem float64_val_cents_dvd (n : ℤ) (f : Float64)
    (h : f.val = centsToRat n) : 25 ∣ n := by
  unfold Float64.val centsToRat at h
  have h100 : (f.m : ℚ) * (2 : ℚ) ^ f.e * 100 = (n : ℚ) := by
    rw [h]
    field_simp
  rcases Int.le_or_lt 0 f.e with he | he
  · obtain ⟨k, hk⟩ := Int.eq_ofNat_of_zero_le he
    rw [hk, zpow_natCast] at h100
    have hz : ((f.m * 2 ^ k * 100 : ℤ) : ℚ) = ((n : ℤ) : ℚ) := by
      push_cast
      exact h100
    have hzz := Int.cast_injective hz
    exact ⟨f.m * 2 ^ k * 4, by omega⟩
  · have hk : f.e = -((-f.e).toNat : ℤ) := by omega
    set k := (-f.e).toNat with hkdef
    rw [hk, zpow_neg, zpow_natCast] at h100
    have h2 : (2 : ℚ) ^ k ≠ 0 := by positivity
    have hq : (f.m : ℚ) * 100 = (n : ℚ) * 2 ^ k := by
      field_simp at h100
      linarith [h100]
    have hz : ((f.m * 100 : ℤ) : ℚ) = ((n * 2 ^ k : ℤ) : ℚ) := by
      push_cast
      exact hq
    have hzz := Int.cast_injective hz
    have hdvd : (25 : ℤ) ∣ n * 2 ^ k := ⟨f.m * 4, by omega⟩
    have hcop : IsCoprime (25 : ℤ) ((2 : ℤ) ^ k) :=
      IsCoprime.pow_right (Int.isCoprime_iff_gcd_eq_one.2 (by decide))
    exact hcop.dvd_of_dvd_mul_right hdvd

/-- Conversely, when 25 divides `n` and `n` is within the 53-bit
mantissa range, some binary64 float equals `n/100` exactly. -/
theorem cents_dvd_float64 (n : ℤ) (h25 : 25 ∣ n) (hb : n.natAbs < 2 ^ 53) :
    ∃ f : Float64, f.val = centsToRat n := by
  obtain ⟨t, rfl⟩ := h25
  have htb : t.natAbs < 2 ^ 53 := by
    have h1 : (25 * t).natAbs = 25 * t.natAbs := by
      rw [Int.natAbs_mul]
      rfl
    omega
  refine ⟨⟨t, -2, htb⟩, ?_⟩
  unfold Float64.val centsToRat
  rw [zpow_neg]
  push_cast
  field_simp
  ring

/-- C7 counterexample: the claim that aggregation results are returned in
a decimal-safe representation equal to the exact decimal sums fails.
The summary service converts each Decimal sum via Python `float(...)`
(binary64); for the store whose category total is 10 cents the exact sum
is 0.10, and no binary64 value equals 0.10, so the returned float cannot
equal the exact decimal sum. -/
theorem C7_float_conversion_counterexample :
    get_expense_summary_by_category sTenCents 1 ⟨2024, 1, 1⟩ ⟨2024, 12, 31⟩ =
      [{ category_name := "Food", total_amount := 10, count := 1 }] ∧
    ¬ ∃ f : Float64, f.val = centsToRat 10 := by
  refine ⟨by decide, ?_⟩
  rintro ⟨f, hf⟩
  exact absurd (float64_val_cents_dvd 10 f hf) (by decide)

/-- C7 amended: each aggregation query computes its sums exactly in
integer cents but returns them converted to binary64 `float`, which is
portable but not decimal-safe: the converted value can equal the exact
decimal sum `n/100` iff `25 ∣ n` (within the 53-bit mantissa range).
Whole-quarter totals (e.g. 0.25) survive the conversion exactly; other
cent totals (e.g. 0.10) do not. -/
theorem C7_float_conversion_amended (s : DB) (uid : Nat) (d1 d2 : CalDate)
    (y m : Nat) :
    (∀ r ∈ get_expense_summary_by_category s uid d1 d2,
      ((∃ f : Float64, f.val = centsToRat r.total_amount) → 25 ∣ r.total_amount) ∧
      (25 ∣ r.total_amount → r.total_amount.natAbs < 2 ^ 53 →
        ∃ f : Float64, f.val = centsToRat r.total_amount)) ∧
    (∀ r ∈ get_monthly_summary_by_category s uid y m,
      ((∃ f : Float64, f.val = centsToRat r.2) → 25 ∣ r.2) ∧
      (25 ∣ r.2 → r.2.natAbs < 2 ^ 53 →
        ∃ f : Float64, f.val = centsToRat r.2)) ∧
    (∀ r ∈ get_spending_over_time s uid d1 d2,
      ((∃ f : Float64, f.val = centsToRat r.2) → 25 ∣ r.2) ∧
      (25 ∣ r.2 → r.2.natAbs < 2 ^ 53 →
        ∃ f : Float64, f.val = centsToRat r.2)) := by
  refine ⟨fun r _ => ⟨?_, ?_⟩, fun r _ => ⟨?_, ?_⟩, fun r _ => ⟨?_, ?_⟩⟩
  · rintro ⟨f, hf⟩
    exact float64_val_cents_dvd _ f hf
  · intro h25 hb
    exact cents_dvd_float64 _ h25 hb
  · rintro ⟨f, hf⟩
    exact float64_val_cents_dvd _ f hf
  · intro h25 hb
    exact cents_dvd_float64 _ h25 hb
  · rintro ⟨f, hf⟩
    exact float64_val_cents_dvd _ f hf
  · intro h25 hb
    exact cents_dvd_float64 _ h25 hb

/-- Witness for C7's amended claim: the 25-cent total of `sQuarter`'s
summary admits an exactly-equal binary64 float. -/
theorem C7_float_conversion_amended_witness :
    ∃ f : Float64, Float64.val f = centsToRat 25 := by
  have h := (C7_float_conversion_amended sQuarter 1 ⟨2024, 1, 1⟩
    ⟨2024, 12, 31⟩ 2024 1).1
  exact (h { category_name := "Food", total_amount := 25, count := 1 }
    (by decide)).2 (by decide) (by decide)

/-- A page is a sublist of the full ordered listing. -/
theorem paginate_items_sublist {α : Type} (l : List α) (pg pp : Nat) :
    (paginate l pg pp).items.Sublist l := by
  unfold paginate
  exact ((l.drop _).take_sublist _).trans (l.drop_sublist _)

/-- A page inherits any pairwise ordering of the full listing. -/
theorem paginate_pairwise {α : Type} {r : α → α → Prop} {l : List α}
    (h : l.Pairwise r) (pg pp : Nat) : (paginate l pg pp).items.Pairwise r :=
  h.sublist (paginate_items_sublist l pg pp)

/-- Metadata of `paginate` for in-range `page`/`per_page` arguments. -/
theorem paginate_meta {α : Type} (l : List α) (pg pp : Nat)
    (hpg : 1 ≤ pg) (hpp : 1 ≤ pp) :
    (paginate l pg pp).total = l.length ∧
    (paginate l pg pp).pages = (l.length + pp - 1) / pp ∧
    (paginate l pg pp).current_page = pg ∧
    (paginate l pg pp).per_page = pp ∧
    (paginate l pg pp).has_next = decide (pg < (l.length + pp - 1) / pp) ∧
    (paginate l pg pp).has_prev = decide (1 < pg) := by
  unfold paginate
  rw [if_neg (by omega), if_neg (by omega)]
  exact ⟨rfl, rfl, rfl, rfl, rfl, rfl⟩

/-- A list fits within `ceil(len / pp)` pages of size `pp`. -/
theorem length_le_ceil_mul (len pp : Nat) (hpp : 1 ≤ pp) :
    len ≤ ((len + pp - 1) / pp) * pp := by
  have h1 := Nat.div_add_mod (len + pp - 1) pp
  have h2 := Nat.mod_lt (len + pp - 1) (show 0 < pp from hpp)
  have h3 : pp * ((len + pp - 1) / pp) = ((len + pp - 1) / pp) * pp :=
    Nat.mul_comm _ _
  generalize hM : ((len + pp - 1) / pp) * pp = M at h3 ⊢
  rw [h3] at h1
  omega

/-- A page past the last one yields an empty item list (no error) and
no next page. -/
theorem paginate_overflow {α : Type} (l : List α) (pg pp : Nat)
    (hpp : 1 ≤ pp) (hov : (paginate l pg pp).pages < pg) :
    (paginate l pg pp).items = [] ∧ (paginate l pg pp).has_next = false := by
  have hpg : 1 ≤ pg := by omega
  have hmeta := paginate_meta l pg pp hpg hpp
  have hov2 : (l.length + pp - 1) / pp < pg := by
    rw [← hmeta.2.1]
    exact hov
  have hdrop : l.length ≤ (pg - 1) * pp := by
    calc l.length ≤ ((l.length + pp - 1) / pp) * pp :=
          length_le_ceil_mul l.length pp hpp
      _ ≤ (pg - 1) * pp := Nat.mul_le_mul_right _ (by omega)
  constructor
  · unfold paginate
    rw [if_neg (by omega), if_neg (by omega)]
    dsimp only []
    rw [List.drop_eq_nil_of_le hdrop, List.take_nil]
  · rw [hmeta.2.2.2.2.1]
    simp only [decide_eq_false_iff_not]
    omega

/-- C6: paginated listings are ordered entity-specifically (expenses by
date descending then id descending, categories and tags alphabetically
by name, budgets by year, month, id all descending), pages contain only
the requesting user's rows, the metadata is `total` = row count,
`pages` = ceiling of total over per_page, echoed `current_page` and
`per_page`, `has_next` = `page < pages`, `has_prev` = `page > 1`, a page
past the last yields an empty item list rather than an error, and page 2
with per_page 1 on the two-expense store returns exactly the older
expense with `has_prev` and without `has_next`. -/
theorem C6_pagination_listing (s : DB) (uid page per : Nat)
    (hpage : 1 ≤ page) (hper : 1 ≤ per) :
    ((get_all_expenses s uid page per).items.Pairwise expense_order ∧
      (∀ e ∈ (get_all_expenses s uid page per).items,
        e ∈ s.expenses ∧ e.user_id = uid)) ∧
    ((get_all_categories s uid page per).items.Pairwise category_order ∧
      (∀ c ∈ (get_all_categories s uid page per).items,
        c ∈ s.categories ∧ c.user_id = uid)) ∧
    ((get_all_tags s uid page per).items.Pairwise tag_order ∧
      (∀ t ∈ (get_all_tags s uid page per).items,
        t ∈ s.tags ∧ t.user_id = uid)) ∧
    ((get_all_budgets s uid page per).items.Pairwise budget_order ∧
      (∀ b ∈ (get_all_budgets s uid page per).items,
        b ∈ s.budgets ∧ b.user_id = uid)) ∧
    ((get_all_expenses s uid page per).total =
        (s.expenses.filter (fun e => e.user_id == uid)).length ∧
      (get_all_expenses s uid page per).pages =
        ((get_all_expenses s uid page per).total + per - 1) / per ∧
      (get_all_expenses s uid page per).current_page = page ∧
      (get_all_expenses s uid page per).per_page = per ∧
      (get_all_expenses s uid page per).has_next =
        decide (page < (get_all_expenses s uid page per).pages) ∧
      (get_all_expenses s uid page per).has_prev = decide (1 < page)) ∧
    ((get_all_expenses s uid page per).pages < page →
      (get_all_expenses s uid page per).items = [] ∧
      (get_all_expenses s uid page per).has_next = false) ∧
    ((get_all_categories s uid page per).pages < page →
      (get_all_categories s uid page per).items = []) ∧
    ((get_all_tags s uid page per).pages < page →
      (get_all_tags s uid page per).items = []) ∧
    ((get_all_budgets s uid page per).pages < page →
      (get_all_budgets s uid page per).items = []) ∧
    get_all_expenses sPage 1 2 1 =
      { items := [exJan], total := 2, pages := 2, current_page := 2,
        per_page := 1, has_next := false, has_prev := true } := by
  refine ⟨⟨?_, ?_⟩, ⟨?_, ?_⟩, ⟨?_, ?_⟩, ⟨?_, ?_⟩, ?_, ?_, ?_, ?_, ?_, by decide⟩
  · exact paginate_pairwise (List.sorted_insertionSort expense_order _) page per
  · intro e he
    have he2 := (paginate_items_sublist _ page per).subset he
    rw [List.mem_insertionSort] at he2
    have h3 := List.mem_filter.1 he2
    exact ⟨h3.1, by simpa using h3.2⟩
  · exact paginate_pairwise (List.sorted_insertionSort category_order _) page per
  · intro c hc
    have hc2 := (paginate_items_sublist _ page per).subset hc
    rw [List.mem_insertionSort] at hc2
    have h3 := List.mem_filter.1 hc2
    exact ⟨h3.1, by simpa using h3.2⟩
  · exact paginate_pairwise (List.sorted_insertionSort tag_order _) page per
  · intro t ht
    have ht2 := (paginate_items_sublist _ page per).subset ht
    rw [List.mem_insertionSort] at ht2
    have h3 := List.mem_filter.1 ht2
    exact ⟨h3.1, by simpa using h3.2⟩
  · exact paginate_pairwise (List.sorted_insertionSort budget_order _) page per
  · intro b hb
    have hb2 := (paginate_items_sublist _ page per).subset hb
    rw [List.mem_insertionSort] at hb2
    have h3 := List.mem_filter.1 hb2
    exact ⟨h3.1, by simpa using h3.2⟩
  · have hm := paginate_meta (List.insertionSort expense_order
      (s.expenses.filter (fun e => e.user_id == uid))) page per hpage hper
    unfold get_all_expenses
    refine ⟨?_, ?_, hm.2.2.1, hm.2.2.2.1, ?_, hm.2.2.2.2.2⟩
    · rw [hm.1, List.length_insertionSort]
    · rw [hm.2.1, hm.1]
    · rw [hm.2.2.2.2.1, hm.2.1]
  · intro hov
    exact paginate_overflow _ page per hper hov
  · intro hov
    exact (paginate_overflow _ page per hper hov).1
  · intro hov
    exact (paginate_overflow _ page per hper hov).1
  · intro hov
    exact (paginate_overflow _ page per hper hov).1

/-- Witness for C6 at the two-expense store: the concrete second page
and an overflowing third page. -/
theorem C6_pagination_listing_witness :
    get_all_expenses sPage 1 2 1 =
      { items := [exJan], total := 2, pages := 2, current_page := 2,
        per_page := 1, has_next := false, has_prev := true } ∧
    (get_all_expenses sPage 1 2 1).items.Pairwise expense_order ∧
    (get_all_expenses sPage 1 3 1).items = [] := by
  have h := C6_pagination_listing sPage 1 2 1 (by decide) (by decide)
  have h3 := C6_pagination_listing sPage 1 3 1 (by decide) (by decide)
  exact ⟨h.2.2.2.2.2.2.2.2.2, h.1.1, (h3.2.2.2.2.2.1 (by decide)).1⟩


/-- Witness for C4 at a concrete store: requesting `{1, 3}` from user 1,
who owns tags 1 and 2, fails naming `[3]`; requesting `{1, 2}` returns
both tags; the empty set yields the empty list. -/
theorem C4_tag_resolution_witness :
    get_tags_by_ids sTags 1 (some (∅ : Finset Nat)) = .ok [] ∧
    get_tags_by_ids sTags 1 (some ({1, 3} : Finset Nat)) =
      .error (.notFound "One or more invalid tag ids: [3]") ∧
    ∃ l, get_tags_by_ids sTags 1 (some ({1, 2} : Finset Nat)) = .ok l ∧
      l.Perm (sTags.tags.filter (fun t => decide (t.id ∈ ({1, 2} : Finset Nat)))) := by
  have h := C4_tag_resolution sTags 1 ({1, 3} : Finset Nat)
  have h2 := C4_tag_resolution sTags 1 ({1, 2} : Finset Nat)
  refine ⟨h.1, ?_, h2.2.2 (by decide) (by decide)⟩
  have hmsg := h.2.1 ⟨3, by decide, by decide⟩
  rw [hmsg]
  have hfilter : (({1, 3} : Finset Nat).filter
      (fun i => ¬ ∃ t ∈ sTags.tags, t.id = i ∧ t.user_id = 1)) = {3} := by
    decide
  rw [hfilter, Finset.sort_singleton]
  rfl

end ExpenseDash
